import Mathlib

/-!
Verification development for the ccsr-watershed-gis repository
(watershed3d.py and dem-pyvista.py): a shallow embedding of the
colormap lookup-table builder, the structured-grid mesh builder, the
raster alignment stage, the interactive button/slider callbacks and the
export flow, together with theorems about them.  Floating-point values
are modelled as rationals; numpy arrays as lists.
-/

namespace Watershed

/-- An RGBA color with rational channel values (floats modelled as rationals). -/
structure RGBA where
  r : ℚ
  g : ℚ
  b : ℚ
  a : ℚ
deriving DecidableEq, Repr

/-- The zero (fully transparent) color, the initial content of the lookup table. -/
def RGBA.zero : RGBA := ⟨0, 0, 0, 0⟩

/-- A palette channel quadruple as stored in a GeoTIFF colormap: 0-255 integers. -/
abbrev Chan := Nat × Nat × Nat × Nat

/-- An embedded palette: association list from raster code to channel quadruple.
A Python dict has unique keys, which theorems state as Nodup of the keys. -/
abbrev Palette := List (Nat × Chan)

/-- Convert a 0-255 channel quadruple to a normalized 0-1 RGBA color,
mirroring the division by 255.0 in create_categorical_lut. -/
def normChan (c : Chan) : RGBA :=
  ⟨(c.1 : ℚ) / 255, (c.2.1 : ℚ) / 255, (c.2.2.1 : ℚ) / 255, (c.2.2.2 : ℚ) / 255⟩

/-- One iteration of the fill loop of create_categorical_lut: an entry whose
code is below num_values overwrites that row of the table, any other entry
is skipped. -/
def lutStep (num_values : Nat) (lut : List RGBA) (e : Nat × Chan) : List RGBA :=
  if e.1 < num_values then lut.set e.1 (normChan e.2) else lut

/-- The fill loop of create_categorical_lut: start from a num_values-row table
of zeros and fold the palette entries over it. -/
def fillLut (num_values : Nat) (cm : Palette) : List RGBA :=
  cm.foldl (lutStep num_values) (List.replicate num_values RGBA.zero)

/-- create_categorical_lut of watershed3d.py: reads the embedded colormap of
band 1 (here passed as an Option, none for a raster with no palette, and a
falsy empty dict also yields None), and builds the 256-entry lookup table. -/
def create_categorical_lut (colormap : Option Palette) (num_values : Nat := 256) :
    Option (List RGBA) :=
  match colormap with
  | none => none
  | some [] => none
  | some cm => some (fillLut num_values cm)

theorem length_lutStep (nv : Nat) (lut : List RGBA) (e : Nat × Chan) :
    (lutStep nv lut e).length = lut.length := by
  unfold lutStep
  split <;> simp

theorem length_foldl_lutStep (nv : Nat) (cm : Palette) (lut : List RGBA) :
    (cm.foldl (lutStep nv) lut).length = lut.length := by
  induction cm generalizing lut with
  | nil => rfl
  | cons e cm ih => simp [List.foldl_cons, ih, length_lutStep]

theorem foldl_lutStep_get?_not_mem (nv : Nat) (cm : Palette) (lut : List RGBA)
    (v : Nat) (hv : v ∉ cm.map Prod.fst) :
    (cm.foldl (lutStep nv) lut).get? v = lut.get? v := by
  induction cm generalizing lut with
  | nil => rfl
  | cons e cm ih =>
      simp only [List.map_cons, List.mem_cons] at hv
      push_neg at hv
      rw [List.foldl_cons, ih _ hv.2]
      unfold lutStep
      split
      · exact List.get?_set_ne _ _ (Ne.symm hv.1)
      · rfl

theorem foldl_lutStep_get?_mem (nv : Nat) (cm : Palette) (lut : List RGBA)
    (v : Nat) (c : Chan) (hmem : (v, c) ∈ cm)
    (hnd : (cm.map Prod.fst).Nodup) (hv : v < nv) (hlen : lut.length = nv) :
    (cm.foldl (lutStep nv) lut).get? v = some (normChan c) := by
  induction cm generalizing lut with
  | nil => cases hmem
  | cons e cm ih =>
      simp only [List.map_cons, List.nodup_cons] at hnd
      rcases List.mem_cons.mp hmem with heq | htail
      · subst heq
        rw [List.foldl_cons]
        have hnotin : v ∉ cm.map Prod.fst := hnd.1
        rw [foldl_lutStep_get?_not_mem nv cm _ v hnotin]
        unfold lutStep
        simp only [hv, if_true]
        exact List.get?_set_eq_of_lt _ (by rw [hlen]; exact hv)
      · have hne : e.1 ≠ v := by
          intro h
          exact hnd.1 (h ▸ List.mem_map_of_mem Prod.fst htail)
        rw [List.foldl_cons]
        exact ih _ htail hnd.2 (by rw [length_lutStep, hlen])

theorem foldl_lutStep_filter (nv : Nat) (cm : Palette) (lut : List RGBA) :
    cm.foldl (lutStep nv) lut
      = (cm.filter (fun e => e.1 < nv)).foldl (lutStep nv) lut := by
  induction cm generalizing lut with
  | nil => rfl
  | cons e cm ih =>
      by_cases h : e.1 < nv
      · rw [List.foldl_cons, ih, List.filter_cons_of_pos (by simpa using h),
          List.foldl_cons]
      · rw [List.foldl_cons, ih, List.filter_cons_of_neg (by simpa using h)]
        unfold lutStep
        rw [if_neg h]

/-- C7: for a categorical raster carrying no embedded palette (and likewise
for an empty palette, which Python treats as falsy), create_categorical_lut
returns None rather than a lookup table, signaling the caller to fall back
to a default colormap. -/
theorem create_categorical_lut_no_palette :
    create_categorical_lut none 256 = none ∧
    create_categorical_lut (some []) 256 = none := ⟨rfl, rfl⟩

/-- C1: for a raster with an embedded palette, create_categorical_lut returns
a table of exactly 256 RGBA rows; each palette code below 256 holds its
channel quadruple divided by 255, codes 256 or greater have no effect on the
table (dropped silently), and rows whose code is absent from the palette stay
zero/transparent. -/
theorem create_categorical_lut_spec (cm : Palette) (hne : cm ≠ [])
    (hnd : (cm.map Prod.fst).Nodup) :
    create_categorical_lut (some cm) 256 = some (fillLut 256 cm) ∧
    (fillLut 256 cm).length = 256 ∧
    (∀ v c, (v, c) ∈ cm → v < 256 → (fillLut 256 cm).get? v = some (normChan c)) ∧
    (fillLut 256 cm = fillLut 256 (cm.filter (fun e => e.1 < 256))) ∧
    (∀ v, v < 256 → v ∉ cm.map Prod.fst →
      (fillLut 256 cm).get? v = some RGBA.zero) := by
  refine ⟨?_, ?_, ?_, ?_, ?_⟩
  · match cm, hne with
    | e :: cm, _ => rfl
  · unfold fillLut
    rw [length_foldl_lutStep, List.length_replicate]
  · intro v c hmem hv
    exact foldl_lutStep_get?_mem 256 cm _ v c hmem hnd hv
      (List.length_replicate 256 RGBA.zero)
  · exact foldl_lutStep_filter 256 cm _
  · intro v hv hnot
    unfold fillLut
    rw [foldl_lutStep_get?_not_mem 256 cm _ v hnot]
    simp only [List.get?_eq_getElem?, List.getElem?_replicate, if_pos hv]

/-- Witness for C1 at a concrete palette containing a code below 256 and a
code at 300 that is dropped. -/
theorem create_categorical_lut_spec_witness :
    create_categorical_lut (some [(2, (255, 0, 0, 255)), (300, (1, 2, 3, 4))]) 256
        = some (fillLut 256 [(2, (255, 0, 0, 255)), (300, (1, 2, 3, 4))]) ∧
    (fillLut 256 [(2, (255, 0, 0, 255)), (300, (1, 2, 3, 4))]).length = 256 ∧
    (∀ v c, (v, c) ∈ [(2, (255, 0, 0, 255)), (300, (1, 2, 3, 4))] → v < 256 →
      (fillLut 256 [(2, (255, 0, 0, 255)), (300, (1, 2, 3, 4))]).get? v
        = some (normChan c)) ∧
    (fillLut 256 [(2, (255, 0, 0, 255)), (300, (1, 2, 3, 4))]
      = fillLut 256
          ([(2, (255, 0, 0, 255)), (300, (1, 2, 3, 4))].filter
            (fun e => e.1 < 256))) ∧
    (∀ v, v < 256 → v ∉ [(2, (255, 0, 0, 255)), (300, (1, 2, 3, 4))].map Prod.fst →
      (fillLut 256 [(2, (255, 0, 0, 255)), (300, (1, 2, 3, 4))]).get? v
        = some RGBA.zero) :=
  create_categorical_lut_spec [(2, (255, 0, 0, 255)), (300, (1, 2, 3, 4))]
    (by decide) (by decide)

/-- A 3D mesh point with rational coordinates. -/
structure Point3 where
  x : ℚ
  y : ℚ
  z : ℚ
deriving DecidableEq, Repr

/-- Zip three coordinate lists into a list of points, as pv.StructuredGrid
does with the flattened xx, yy, zz arrays. -/
def mkPoints : List ℚ → List ℚ → List ℚ → List Point3
  | x :: xs, y :: ys, z :: zs => ⟨x, y, z⟩ :: mkPoints xs ys zs
  | _, [], _ => []
  | [], _, _ => []
  | _, _, [] => []

/-- Flatten a row-major matrix in Fortran (column-major) order, as
numpy ravel with order F does: column j of every row, for j over the width. -/
def ravelF (m : List (List ℚ)) : List ℚ :=
  (List.range (m.headD []).length).flatMap (fun j => m.map (fun row => row.getD j 0))

/-- The first output of np.meshgrid (xs, ys): each of the ys.length rows is xs. -/
def meshgridX (xs ys : List ℚ) : List (List ℚ) :=
  ys.map (fun _ => xs)

/-- The second output of np.meshgrid (xs, ys): row i holds ys i at every column. -/
def meshgridY (xs ys : List ℚ) : List (List ℚ) :=
  ys.map (fun y => xs.map (fun _ => y))

/-- Elementwise multiplication of a matrix by a scalar: zz times args.scale_z. -/
def scaleMat (s : ℚ) (m : List (List ℚ)) : List (List ℚ) :=
  m.map (fun row => row.map (· * s))

/-- A PyVista structured grid: a list of points and named per-point
scalar attributes. -/
structure SGrid where
  points : List Point3
  attrs : List (String × List ℚ)
deriving DecidableEq, Repr

/-- The mesh-building lines of watershed3d.py: geometry from meshgrid
coordinates and elevation scaled by scale_z, and the Elevation attribute
from the unscaled elevations, flattened in Fortran order. -/
def buildGrid (xs ys : List ℚ) (zz : List (List ℚ)) (scale_z : ℚ) : SGrid :=
  { points := mkPoints (ravelF (meshgridX xs ys)) (ravelF (meshgridY xs ys))
      (ravelF (scaleMat scale_z zz)),
    attrs := [("Elevation", ravelF zz)] }

/-- Overwrite the z coordinate of each point from a list, keeping x and y,
as the slice assignment points[:, 2] = ... does. -/
def setZs : List Point3 → List ℚ → List Point3
  | p :: ps, z :: zs => ⟨p.x, p.y, z⟩ :: setZs ps zs
  | ps, [] => ps
  | [], _ :: _ => []

/-- update_elevation of watershed3d.py: copy the points, overwrite their z
column with the flattened base elevation times the slider value, and store
the points back; attributes are untouched. -/
def update_elevation (zz_flat : List ℚ) (value : ℚ) (g : SGrid) : SGrid :=
  { g with points := setZs g.points (zz_flat.map (· * value)) }

theorem ravelF_length (m : List (List ℚ)) :
    (ravelF m).length = (m.headD []).length * m.length := by
  unfold ravelF
  rw [List.length_flatMap]
  simp only [Function.comp_def, List.length_map]
  simp [List.map_const', List.sum_replicate, smul_eq_mul]

theorem ravelF_scaleMat (s : ℚ) (m : List (List ℚ)) :
    ravelF (scaleMat s m) = (ravelF m).map (· * s) := by
  unfold ravelF scaleMat
  have hw : ((m.map (fun row => row.map (· * s))).headD []).length
      = (m.headD []).length := by
    cases m with
    | nil => rfl
    | cons r m => simp
  rw [hw, List.map_flatMap]
  apply List.flatMap_congr
  intro j _
  rw [List.map_map, List.map_map]
  apply List.map_congr_left
  intro row _
  show (row.map (· * s)).getD j 0 = row.getD j 0 * s
  have h := List.getD_map (l := row) (n := j) (f := fun a => a * s) (d := 0)
  simpa using h

theorem ravelF_meshgridX_length (xs ys : List ℚ) :
    (ravelF (meshgridX xs ys)).length = xs.length * ys.length := by
  rw [ravelF_length]
  cases ys with
  | nil => simp [meshgridX]
  | cons y ys => simp [meshgridX]

theorem ravelF_meshgridY_length (xs ys : List ℚ) :
    (ravelF (meshgridY xs ys)).length = xs.length * ys.length := by
  rw [ravelF_length]
  cases ys with
  | nil => simp [meshgridY]
  | cons y ys => simp [meshgridY]

theorem ravelF_length_of_dims (xs ys : List ℚ) (zz : List (List ℚ))
    (hz1 : zz.length = ys.length) (hz2 : ∀ row ∈ zz, row.length = xs.length) :
    (ravelF zz).length = xs.length * ys.length := by
  rw [ravelF_length, hz1]
  cases zz with
  | nil => simp at hz1; rw [← hz1]; simp
  | cons r m => rw [List.headD_cons, hz2 r (List.mem_cons_self r m)]

theorem mkPoints_maps (as bs cs : List ℚ) (hab : as.length = bs.length)
    (hac : as.length = cs.length) :
    (mkPoints as bs cs).map Point3.x = as ∧
    (mkPoints as bs cs).map Point3.y = bs ∧
    (mkPoints as bs cs).map Point3.z = cs ∧
    (mkPoints as bs cs).length = as.length := by
  induction as generalizing bs cs with
  | nil =>
      cases bs with
      | nil =>
          cases cs with
          | nil => exact ⟨rfl, rfl, rfl, rfl⟩
          | cons c cs => simp at hac
      | cons b bs => simp at hab
  | cons a as ih =>
      cases bs with
      | nil => simp at hab
      | cons b bs =>
          cases cs with
          | nil => simp at hac
          | cons c cs =>
              simp only [List.length_cons, Nat.succ.injEq] at hab hac
              obtain ⟨h1, h2, h3, h4⟩ := ih bs cs hab hac
              exact ⟨by simp [mkPoints, h1], by simp [mkPoints, h2],
                by simp [mkPoints, h3], by simp [mkPoints, h4]⟩

theorem setZs_maps (ps : List Point3) (zs : List ℚ) :
    (setZs ps zs).map Point3.x = ps.map Point3.x ∧
    (setZs ps zs).map Point3.y = ps.map Point3.y ∧
    (setZs ps zs).length = ps.length := by
  induction ps generalizing zs with
  | nil => cases zs <;> exact ⟨rfl, rfl, rfl⟩
  | cons p ps ih =>
      cases zs with
      | nil => exact ⟨rfl, rfl, rfl⟩
      | cons z zs =>
          obtain ⟨h1, h2, h3⟩ := ih zs
          exact ⟨by simp [setZs, h1], by simp [setZs, h2], by simp [setZs, h3]⟩

theorem setZs_map_z (ps : List Point3) (zs : List ℚ)
    (h : zs.length = ps.length) :
    (setZs ps zs).map Point3.z = zs := by
  induction ps generalizing zs with
  | nil =>
      cases zs with
      | nil => rfl
      | cons z zs => simp at h
  | cons p ps ih =>
      cases zs with
      | nil => simp at h
      | cons z zs =>
          simp only [List.length_cons, Nat.succ.injEq] at h
          simp [setZs, ih zs h]

/-- C2: the mesh builder places point geometry at (x, y, elevation times
scale_z) — x and y are the meshgrid coordinates, z is the elevation scaled —
while the attached Elevation attribute holds the unscaled elevations, so the
coloring source does not mention the exaggeration factor at all. -/
theorem buildGrid_spec (xs ys : List ℚ) (zz : List (List ℚ)) (s : ℚ)
    (hz1 : zz.length = ys.length) (hz2 : ∀ row ∈ zz, row.length = xs.length) :
    (buildGrid xs ys zz s).attrs = [("Elevation", ravelF zz)] ∧
    (buildGrid xs ys zz s).points.map Point3.x = ravelF (meshgridX xs ys) ∧
    (buildGrid xs ys zz s).points.map Point3.y = ravelF (meshgridY xs ys) ∧
    (buildGrid xs ys zz s).points.map Point3.z = (ravelF zz).map (· * s) := by
  have hA := ravelF_meshgridX_length xs ys
  have hB := ravelF_meshgridY_length xs ys
  have hC : (ravelF (scaleMat s zz)).length = xs.length * ys.length := by
    rw [ravelF_scaleMat, List.length_map]
    exact ravelF_length_of_dims xs ys zz hz1 hz2
  obtain ⟨h1, h2, h3, _⟩ := mkPoints_maps (ravelF (meshgridX xs ys))
    (ravelF (meshgridY xs ys)) (ravelF (scaleMat s zz))
    (hA.trans hB.symm) (hA.trans hC.symm)
  refine ⟨rfl, h1, h2, ?_⟩
  show (mkPoints (ravelF (meshgridX xs ys)) (ravelF (meshgridY xs ys))
      (ravelF (scaleMat s zz))).map Point3.z = (ravelF zz).map (· * s)
  rw [h3, ravelF_scaleMat]

/-- Witness for C2 at a concrete 1-by-2 DEM with exaggeration 2. -/
theorem buildGrid_spec_witness :
    (buildGrid [0, 1] [10] [[3, 4]] 2).attrs = [("Elevation", ravelF [[3, 4]])] ∧
    (buildGrid [0, 1] [10] [[3, 4]] 2).points.map Point3.x
      = ravelF (meshgridX [0, 1] [10]) ∧
    (buildGrid [0, 1] [10] [[3, 4]] 2).points.map Point3.y
      = ravelF (meshgridY [0, 1] [10]) ∧
    (buildGrid [0, 1] [10] [[3, 4]] 2).points.map Point3.z
      = (ravelF [[3, 4]]).map (· * 2) :=
  buildGrid_spec [0, 1] [10] [[3, 4]] 2 (by decide) (by decide)

theorem update_elevation_length (zzf : List ℚ) (v : ℚ) (g : SGrid) :
    (update_elevation zzf v g).points.length = g.points.length :=
  (setZs_maps g.points (zzf.map (· * v))).2.2

theorem foldl_update_length (zzf : List ℚ) (vs : List ℚ) (g : SGrid) :
    (vs.foldl (fun g v => update_elevation zzf v g) g).points.length
      = g.points.length := by
  induction vs generalizing g with
  | nil => rfl
  | cons v vs ih => rw [List.foldl_cons, ih, update_elevation_length]

/-- C3: after any sequence of slider invocations followed by one with value s,
the geometry z of every mesh point equals the stored base elevation times s —
the callback recomputes from the unscaled base, so prior invocations do not
compound. -/
theorem update_elevation_linear (zzf : List ℚ) (g0 : SGrid) (vs : List ℚ)
    (s : ℚ) (hlen : g0.points.length = zzf.length) :
    (update_elevation zzf s
        (vs.foldl (fun g v => update_elevation zzf v g) g0)).points.map Point3.z
      = zzf.map (· * s) := by
  show (setZs (vs.foldl (fun g v => update_elevation zzf v g) g0).points
      (zzf.map (· * s))).map Point3.z = zzf.map (· * s)
  apply setZs_map_z
  rw [List.length_map, foldl_update_length]
  exact hlen.symm

/-- Witness for C3: base elevations 1 and 2, earlier slider values 0.1 and 1,
final value 5; the resulting heights are 5 and 10. -/
theorem update_elevation_linear_witness :
    (update_elevation [1, 2] 5
        (([1/10, 1] : List ℚ).foldl (fun g v => update_elevation [1, 2] v g)
          ⟨[⟨0, 0, 7⟩, ⟨1, 0, 9⟩], [("Elevation", [1, 2])]⟩)).points.map Point3.z
      = ([1, 2] : List ℚ).map (· * 5) :=
  update_elevation_linear [1, 2] ⟨[⟨0, 0, 7⟩, ⟨1, 0, 9⟩], [("Elevation", [1, 2])]⟩
    [1/10, 1] 5 (by decide)

/-- C10: the slider callback changes only the z column of the points: the x
and y coordinates of every point, the number of points, and every named
scalar attribute of the mesh are unchanged. -/
theorem update_elevation_frame (zzf : List ℚ) (v : ℚ) (g : SGrid) :
    (update_elevation zzf v g).points.map Point3.x = g.points.map Point3.x ∧
    (update_elevation zzf v g).points.map Point3.y = g.points.map Point3.y ∧
    (update_elevation zzf v g).points.length = g.points.length ∧
    (update_elevation zzf v g).attrs = g.attrs :=
  ⟨(setZs_maps g.points (zzf.map (· * v))).1,
   (setZs_maps g.points (zzf.map (· * v))).2.1,
   (setZs_maps g.points (zzf.map (· * v))).2.2, rfl⟩

/-- The four layers selectable through the interactive checkbox buttons. -/
inductive Layer
  | nlcd
  | cdl
  | runoff
  | elevation
deriving DecidableEq, Repr, Fintype

/-- The interactive-mode UI state: the state of the four checkbox widgets and
the scalar attribute carried by the actor named terrain (none if removed). -/
structure UIState where
  nlcdW : Bool
  cdlW : Bool
  runoffW : Bool
  elevW : Bool
  terrain : Option Layer
deriving DecidableEq, Repr, Fintype

/-- The state of the checkbox widget of a layer. -/
def widgetState (st : UIState) : Layer → Bool
  | .nlcd => st.nlcdW
  | .cdl => st.cdlW
  | .runoff => st.runoffW
  | .elevation => st.elevW

/-- Set the state of the checkbox widget of a layer (SetState on its
representation). -/
def setWidget (st : UIState) (b : Layer) (v : Bool) : UIState :=
  match b with
  | .nlcd => { st with nlcdW := v }
  | .cdl => { st with cdlW := v }
  | .runoff => { st with runoffW := v }
  | .elevation => { st with elevW := v }

/-- The callback show_nlcd / show_cdl / show_runoff / show_elevation of
watershed3d.py: remove the terrain actor and the scalar bar, re-add the mesh
under the name terrain with the layer's scalars and colormap, and set the
state of the three other checkbox widgets to 0.  The callback ignores its
value argument and never touches its own widget's state. -/
def showLayer (b : Layer) (st : UIState) : UIState :=
  let st1 := { st with terrain := some b }
  match b with
  | .nlcd => { st1 with cdlW := false, runoffW := false, elevW := false }
  | .cdl => { st1 with nlcdW := false, runoffW := false, elevW := false }
  | .runoff => { st1 with nlcdW := false, cdlW := false, elevW := false }
  | .elevation => { st1 with nlcdW := false, cdlW := false, runoffW := false }

/-- A user click on the checkbox widget of layer b: the widget toggles its
own state, then the registered callback runs. -/
def click (st : UIState) (b : Layer) : UIState :=
  showLayer b (setWidget st b (!(widgetState st b)))

/-- A sequence of clicks, earliest first. -/
def clicks (st : UIState) (bs : List Layer) : UIState :=
  bs.foldl click st

/-- The initial interactive state: the mesh is added with NLCD scalars, the
NLCD checkbox widget is created with value True and the other three with
value False. -/
def initState : UIState :=
  ⟨true, false, false, false, some Layer.nlcd⟩

/-- How many checkbox widgets are in the active state. -/
def activeCount (st : UIState) : Nat :=
  st.nlcdW.toNat + st.cdlW.toNat + st.runoffW.toNat + st.elevW.toNat

theorem activeCount_click_le (st : UIState) (b : Layer) :
    activeCount (click st b) ≤ 1 := by
  revert st b
  decide

theorem activeCount_clicks_le (st : UIState) (bs : List Layer)
    (h : activeCount st ≤ 1) : activeCount (clicks st bs) ≤ 1 := by
  induction bs generalizing st with
  | nil => exact h
  | cons b bs ih => exact ih (click st b) (activeCount_click_le st b)

theorem click_inactive_spec (st : UIState) (b : Layer)
    (h : widgetState st b = false) :
    activeCount (click st b) = 1 ∧ widgetState (click st b) b = true ∧
      (click st b).terrain = some b := by
  revert st b
  decide

/-- C4 counterexample: from the initial interactive state (NLCD active), a
single click on the NLCD button — the button whose attribute is currently
shown — toggles that checkbox off while the callback only unchecks the other
three, so afterwards zero buttons are active, contradicting the claim that
exactly one attribute is active after every activation and never zero after
the initial load. -/
theorem click_active_button_zero_active :
    activeCount (clicks initState [Layer.nlcd]) = 0 ∧
    widgetState (clicks initState [Layer.nlcd]) Layer.nlcd = false ∧
    ¬ activeCount (clicks initState [Layer.nlcd]) = 1 := by decide

/-- C4 amended: every click removes and re-adds the terrain mesh with the
clicked button's scalar attribute and unchecks the other buttons, so at most
one button is active at any time (never two); a click on a currently
inactive button B leaves exactly B active; but a click on the currently
active button toggles it off, leaving zero buttons active. -/
theorem click_invariant (bs : List Layer) :
    activeCount (clicks initState bs) ≤ 1 ∧
    (∀ b : Layer, widgetState (clicks initState bs) b = false →
      activeCount (click (clicks initState bs) b) = 1 ∧
      widgetState (click (clicks initState bs) b) b = true ∧
      (click (clicks initState bs) b).terrain = some b) ∧
    (∀ b : Layer, widgetState (clicks initState bs) b = true →
      activeCount (click (clicks initState bs) b) = 0 ∧
      (click (clicks initState bs) b).terrain = some b) := by
  refine ⟨activeCount_clicks_le initState bs (by decide), ?_, ?_⟩
  · intro b hb
    exact click_inactive_spec (clicks initState bs) b hb
  · intro b hb
    have h : ∀ st : UIState, ∀ c : Layer, widgetState st c = true →
        activeCount (click st c) = 0 ∧ (click st c).terrain = some c := by
      decide
    exact h (clicks initState bs) b hb

/-- Witness for C4 amended: after a click on CDL, clicking the inactive
Runoff button yields exactly one active button, and clicking the now-active
Runoff button yields zero. -/
theorem click_invariant_witness :
    (activeCount (click (clicks initState [Layer.cdl]) Layer.runoff) = 1 ∧
     widgetState (click (clicks initState [Layer.cdl]) Layer.runoff) Layer.runoff
       = true ∧
     (click (clicks initState [Layer.cdl]) Layer.runoff).terrain
       = some Layer.runoff) ∧
    (activeCount (click (clicks initState [Layer.cdl]) Layer.cdl) = 0 ∧
     (click (clicks initState [Layer.cdl]) Layer.cdl).terrain = some Layer.cdl) :=
  ⟨(click_invariant [Layer.cdl]).2.1 Layer.runoff (by decide),
   (click_invariant [Layer.cdl]).2.2 Layer.cdl (by decide)⟩

/-- Modelled from the spec: the nearest-neighbor resampling done inside the
rio.reproject / rio.reproject_match library calls is not code of this
repository; the spec describes it as picking, per cell, the nearest source
cell.  This is the index of the source coordinate nearest to x (first on
ties). -/
def nearestIdx (coords : List ℚ) (x : ℚ) : Nat :=
  ((List.range coords.length).argmin (fun i => |coords.getD i 0 - x|)).getD 0

/-- Modelled from the spec: reproject_match lays its output on the target
(DEM) grid — one row per target y coordinate, one column per target x
coordinate — filling each cell by the resampling kernel f. -/
def reproject_match (f : ℚ → ℚ → ℚ) (txs tys : List ℚ) : List (List ℚ) :=
  tys.map (fun y => txs.map (fun x => f x y))

/-- Modelled from the spec: nearest-neighbor resampling of a source raster
with axis coordinates sxs, sys and values svals onto the target grid: every
target cell takes the value of the nearest source cell. -/
def resampleNearest (sxs sys : List ℚ) (svals : List (List ℚ))
    (txs tys : List ℚ) : List (List ℚ) :=
  reproject_match
    (fun x y => (svals.getD (nearestIdx sys y) []).getD (nearestIdx sxs x) 0)
    txs tys

/-- The shape (rows, columns) of a raster, columns read from the first row. -/
def rasterShape (m : List (List ℚ)) : Nat × Nat :=
  (m.length, (m.headD []).length)

/-- The alignment step of dem-pyvista.py: resample the overlay onto the DEM
grid (through the resampling kernel f) only when the shapes differ. -/
def alignRaster (f : ℚ → ℚ → ℚ) (raster : List (List ℚ)) (txs tys : List ℚ) :
    List (List ℚ) :=
  if rasterShape raster = (tys.length, txs.length) then raster
  else reproject_match f txs tys

/-- Attach an aligned overlay to the mesh as a named scalar attribute,
flattened in Fortran order exactly like the geometry. -/
def attachAttr (g : SGrid) (name : String) (vals : List ℚ) : SGrid :=
  { g with attrs := g.attrs ++ [(name, vals)] }

theorem nearestIdx_lt (coords : List ℚ) (x : ℚ) (h : coords ≠ []) :
    nearestIdx coords x < coords.length := by
  unfold nearestIdx
  cases harg : (List.range coords.length).argmin (fun i => |coords.getD i 0 - x|) with
  | none =>
      rw [List.argmin_eq_none, List.range_eq_nil] at harg
      exact absurd (List.length_eq_zero.mp harg) h
  | some m =>
      have hm := List.argmin_mem harg
      simpa using List.mem_range.mp hm

theorem getD_mem (l : List ℚ) (i : Nat) (d : ℚ) (h : i < l.length) :
    l.getD i d ∈ l := by
  rw [List.getD_eq_getElem?_getD, List.getElem?_eq_getElem h]
  exact List.getElem_mem h

theorem getD_mem_rows (l : List (List ℚ)) (i : Nat) (h : i < l.length) :
    l.getD i [] ∈ l := by
  rw [List.getD_eq_getElem?_getD, List.getElem?_eq_getElem h]
  exact List.getElem_mem h

/-- C5: the aligned raster produced by nearest-neighbor resampling onto the
DEM grid contains no code value absent from the original overlay's value
set: every cell of the output is a cell value of the input. -/
theorem resampleNearest_mem (sxs sys : List ℚ) (svals : List (List ℚ))
    (txs tys : List ℚ) (hys : sys ≠ []) (hxs : sxs ≠ [])
    (hrows : svals.length = sys.length)
    (hcols : ∀ row ∈ svals, row.length = sxs.length) :
    ∀ v ∈ (resampleNearest sxs sys svals txs tys).flatten, v ∈ svals.flatten := by
  intro v hv
  obtain ⟨row, hrow, hvrow⟩ := List.mem_flatten.mp hv
  unfold resampleNearest reproject_match at hrow
  obtain ⟨y, _, hy⟩ := List.mem_map.mp hrow
  rw [← hy] at hvrow
  obtain ⟨x, _, hx⟩ := List.mem_map.mp hvrow
  have hi : nearestIdx sys y < svals.length := by
    rw [hrows]
    exact nearestIdx_lt sys y hys
  have hsrc : svals.getD (nearestIdx sys y) [] ∈ svals := getD_mem_rows _ _ hi
  have hj : nearestIdx sxs x < (svals.getD (nearestIdx sys y) []).length := by
    rw [hcols _ hsrc]
    exact nearestIdx_lt sxs x hxs
  exact List.mem_flatten.mpr ⟨svals.getD (nearestIdx sys y) [], hsrc,
    hx ▸ getD_mem _ _ _ hj⟩

/-- Witness for C5: a 1-by-1 source raster with value 9 resampled onto a
1-by-2 target grid yields only the value 9, which is in the source values. -/
theorem resampleNearest_mem_witness :
    (resampleNearest [0] [0] [[9]] [0, 1] [5]).flatten = [9, 9] ∧
    (9 : ℚ) ∈ ([[9]] : List (List ℚ)).flatten :=
  ⟨by decide,
   resampleNearest_mem [0] [0] [[9]] [0, 1] [5] (by decide) (by decide)
     (by decide) (by decide) 9 (by decide)⟩

theorem ravelF_reproject_match_length (f : ℚ → ℚ → ℚ) (txs tys : List ℚ) :
    (ravelF (reproject_match f txs tys)).length = txs.length * tys.length := by
  rw [ravelF_length]
  cases tys with
  | nil => simp [reproject_match]
  | cons y tys => simp [reproject_match]

theorem ravelF_alignRaster_length (f : ℚ → ℚ → ℚ) (raster : List (List ℚ))
    (txs tys : List ℚ) :
    (ravelF (alignRaster f raster txs tys)).length = txs.length * tys.length := by
  unfold alignRaster
  split
  · rename_i h
    rw [ravelF_length]
    unfold rasterShape at h
    rw [Prod.mk.injEq] at h
    rw [h.1, h.2, Nat.mul_comm]
  · exact ravelF_reproject_match_length f txs tys

/-- C6: after the alignment stage, the overlay attribute attached to the mesh
has exactly as many cells as the DEM: its flattened length equals the
flattened DEM length and the number of mesh points, and it is attached under
its name as the Fortran-order flattening, the same flattening the geometry
and the Elevation attribute use. -/
theorem alignment_preserves_cell_count (f : ℚ → ℚ → ℚ) (raster : List (List ℚ))
    (xs ys : List ℚ) (zz : List (List ℚ)) (s : ℚ) (name : String)
    (hz1 : zz.length = ys.length) (hz2 : ∀ row ∈ zz, row.length = xs.length)
    (hname : name ≠ "Elevation") :
    (ravelF (alignRaster f raster xs ys)).length = (ravelF zz).length ∧
    (buildGrid xs ys zz s).points.length = (ravelF zz).length ∧
    (attachAttr (buildGrid xs ys zz s) name
        (ravelF (alignRaster f raster xs ys))).attrs.lookup name
      = some (ravelF (alignRaster f raster xs ys)) := by
  have hzlen := ravelF_length_of_dims xs ys zz hz1 hz2
  refine ⟨?_, ?_, ?_⟩
  · rw [ravelF_alignRaster_length, hzlen]
  · have hA := ravelF_meshgridX_length xs ys
    have hB := ravelF_meshgridY_length xs ys
    have hC : (ravelF (scaleMat s zz)).length = xs.length * ys.length := by
      rw [ravelF_scaleMat, List.length_map]
      exact hzlen
    have hlen := (mkPoints_maps (ravelF (meshgridX xs ys))
      (ravelF (meshgridY xs ys)) (ravelF (scaleMat s zz))
      (hA.trans hB.symm) (hA.trans hC.symm)).2.2.2
    show (mkPoints (ravelF (meshgridX xs ys)) (ravelF (meshgridY xs ys))
      (ravelF (scaleMat s zz))).length = (ravelF zz).length
    rw [hlen, hA, hzlen]
  · show ([("Elevation", ravelF zz),
      (name, ravelF (alignRaster f raster xs ys))] : List (String × List ℚ)).lookup
        name = some (ravelF (alignRaster f raster xs ys))
    have hne : (name == "Elevation") = false := by
      exact beq_eq_false_iff_ne.mpr hname
    simp [List.lookup, hne]

/-- Witness for C6: a 1-by-1 overlay aligned onto a 1-by-2 DEM and attached
as NLCD. -/
theorem alignment_preserves_cell_count_witness :
    (ravelF (alignRaster (fun _ _ => 3) [[9]] [0, 1] [5])).length
      = (ravelF [[1, 2]]).length ∧
    (buildGrid [0, 1] [5] [[1, 2]] 1).points.length = (ravelF [[1, 2]]).length ∧
    (attachAttr (buildGrid [0, 1] [5] [[1, 2]] 1) "NLCD"
        (ravelF (alignRaster (fun _ _ => 3) [[9]] [0, 1] [5]))).attrs.lookup "NLCD"
      = some (ravelF (alignRaster (fun _ _ => 3) [[9]] [0, 1] [5])) :=
  alignment_preserves_cell_count (fun _ _ => 3) [[9]] [0, 1] [5] [[1, 2]] 1
    "NLCD" (by decide) (by decide) (by decide)

/-- The value of the --color command-line flag. -/
inductive ColorMode
  | elevation
  | nlcd
  | runoff
  | cdl
  | interactive
deriving DecidableEq, Repr, Fintype

/-- The string form of a ColorMode, as args.color holds it. -/
def colorStr : ColorMode → String
  | .elevation => "elevation"
  | .nlcd => "nlcd"
  | .runoff => "runoff"
  | .cdl => "cdl"
  | .interactive => "interactive"

/-- The scalars of the meshes added by each branch of watershed3d.py to the
main window plotter (first component) and to the off-screen export plotter
(second component): every non-interactive branch adds its mesh to both; the
interactive branch adds the initial NLCD mesh to the main plotter only and
never calls add_mesh on export_plotter. -/
def plotterMeshes : ColorMode → List String × List String
  | .elevation => (["Elevation"], ["Elevation"])
  | .nlcd => (["NLCD"], ["NLCD"])
  | .cdl => (["CDL"], ["CDL"])
  | .runoff => (["Runoff"], ["Runoff"])
  | .interactive => (["NLCD"], [])

/-- Observable events of the tail of watershed3d.py: showing the interactive
window, exporting the HTML document, exporting the PNG screenshot. -/
inductive Ev
  | showWindow
  | exportHtml (path : String)
  | exportPng (path : String)
deriving DecidableEq, Repr

/-- Whether an event is one of the two export writes. -/
def Ev.isExport : Ev → Bool
  | .showWindow => false
  | .exportHtml _ => true
  | .exportPng _ => true

/-- Whether an event writes the HTML document. -/
def Ev.isHtml : Ev → Bool
  | .exportHtml _ => true
  | _ => false

/-- Whether an event writes the PNG screenshot. -/
def Ev.isPng : Ev → Bool
  | .exportPng _ => true
  | _ => false

/-- The output filename stem built at the export block. -/
def outStem (c : ColorMode) : String :=
  "outputs/watershed_dem_" ++ colorStr c

/-- The tail of watershed3d.py: plotter.show() always runs first; then, only
when --export was given, export_html and screenshot run on the export
plotter with the mode-named paths. -/
def mainEvents (c : ColorMode) (exportFlag : Bool) : List Ev :=
  [Ev.showWindow] ++
    (if exportFlag then
      [Ev.exportHtml (outStem c ++ ".html"), Ev.exportPng (outStem c ++ ".png")]
    else [])

/-- C8: export events occur when and only when the --export flag is given;
the window is shown first and the export writes come after it; when the flag
is given there is exactly one HTML write and one PNG write, to the fixed
outputs/ directory with filenames determined by the coloring mode. -/
theorem export_trace_spec (c : ColorMode) (e : Bool) :
    ((mainEvents c e).any Ev.isExport = e) ∧
    ((mainEvents c e).countP Ev.isHtml = if e then 1 else 0) ∧
    ((mainEvents c e).countP Ev.isPng = if e then 1 else 0) ∧
    ((mainEvents c e).head? = some Ev.showWindow) ∧
    (e = true → mainEvents c e
      = [Ev.showWindow,
         Ev.exportHtml ("outputs/watershed_dem_" ++ colorStr c ++ ".html"),
         Ev.exportPng ("outputs/watershed_dem_" ++ colorStr c ++ ".png")]) := by
  cases e with
  | false =>
      refine ⟨rfl, rfl, rfl, rfl, ?_⟩
      intro h
      cases h
  | true => exact ⟨rfl, rfl, rfl, rfl, fun _ => rfl⟩

/-- Witness for C8 in nlcd mode with the export flag set. -/
theorem export_trace_spec_witness :
    ((mainEvents ColorMode.nlcd true).any Ev.isExport = true) ∧
    ((mainEvents ColorMode.nlcd true).countP Ev.isHtml = if true then 1 else 0) ∧
    ((mainEvents ColorMode.nlcd true).countP Ev.isPng = if true then 1 else 0) ∧
    ((mainEvents ColorMode.nlcd true).head? = some Ev.showWindow) ∧
    (true = true → mainEvents ColorMode.nlcd true
      = [Ev.showWindow,
         Ev.exportHtml ("outputs/watershed_dem_" ++ colorStr ColorMode.nlcd
           ++ ".html"),
         Ev.exportPng ("outputs/watershed_dem_" ++ colorStr ColorMode.nlcd
           ++ ".png")]) :=
  export_trace_spec ColorMode.nlcd true

/-- C9: in interactive mode no mesh is ever added to the off-screen export
plotter, so running with --color interactive and --export still writes the
HTML document and the PNG screenshot, of a scene containing no terrain
mesh. -/
theorem interactive_export_empty_scene :
    (plotterMeshes ColorMode.interactive).2 = [] ∧
    (plotterMeshes ColorMode.interactive).1 = ["NLCD"] ∧
    mainEvents ColorMode.interactive true
      = [Ev.showWindow,
         Ev.exportHtml "outputs/watershed_dem_interactive.html",
         Ev.exportPng "outputs/watershed_dem_interactive.png"] := by
  refine ⟨rfl, rfl, ?_⟩
  decide

end Watershed
